import Mathlib

/-!
Verification development for the gesture-controlled pong game.

The embedding covers:
* the Forest Pong game engine (components/GameEngine.tsx) — paddles, ball
  physics, serve rotation, win detection and the hand-presence debounce,
  modelled over the rationals with randomness threaded through an explicit
  environment of per-tick draws;
* the second game variant (GameCanvas, src/unnamed/part_002) — its scoring /
  serve-rotation logic over naturals and its trigonometric paddle-collision
  response over the reals;
* the gesture classifier (isFist) over the reals.

The per-frame `update` consumes the classified hand input (presence, index
fingertip x, fist / index-bent booleans) exactly as the source's update
consumes the landmark frame through isFist / isIndexBent / landmarks[8].x;
the classifier itself is embedded separately.  UI-only effects (status
strings become an enum; countdown timers, which only write display state)
are modelled accordingly.
-/

set_option maxHeartbeats 1000000
set_option maxRecDepth 100000

namespace Forest

-- Constants from constants.ts of the Forest Pong variant.
def CANVAS_WIDTH : ℚ := 1280

def CANVAS_HEIGHT : ℚ := 720

def PADDLE_WIDTH : ℚ := 120

def PADDLE_HEIGHT : ℚ := 20

def BALL_RADIUS : ℚ := 10

def WALL_OFFSET : ℚ := 20

def PADDLE_SPEED_AI : ℚ := 15/2

def WINNING_SCORE : ℕ := 11

inductive GState where
  | INITIALIZING
  | WAITING_FOR_HAND
  | MENU
  | SERVING
  | PLAYING
  | GAME_OVER
  deriving DecidableEq

inductive ServeTurn where
  | PLAYER
  | AI
  deriving DecidableEq

-- Values taken by setHandStatus, as an enum instead of strings.
inductive HandStatus where
  | initialCamera
  | handDetectedMsg
  | lostTracking
  deriving DecidableEq

structure Ball where
  x : ℚ
  y : ℚ
  dx : ℚ
  dy : ℚ
  baseSpeed : ℚ
  launchDirY : ℚ
  launchDx : ℚ
  deriving DecidableEq

/-- Classified hand input for one frame: landmarks[8].x together with the
isFist / isIndexBent classification results. -/
structure HandInput where
  rawX : ℚ
  fist : Bool
  indexBent : Bool
  deriving DecidableEq

/-- Per-tick draws standing for the Math.random() calls: the serve launch
angle (resetBall), the serve-phase AI error (startServePhase), the
player-hit AI error, and the AI auto-serve chance. -/
structure Env where
  randLaunch : ℚ
  randServeErr : ℚ
  randHitErr : ℚ
  randAuto : ℚ
  deriving DecidableEq

structure EngineState where
  paddlePlayerX : ℚ
  paddleAIX : ℚ
  ball : Ball
  aiErrorOffset : ℚ
  gameState : GState
  player : ℕ
  ai : ℕ
  serveTurn : ServeTurn
  servesCount : ℕ
  handDetected : Bool
  missingHandFrames : ℕ
  handStatus : HandStatus
  deriving DecidableEq

def other : ServeTurn → ServeTurn
  | .PLAYER => .AI
  | .AI => .PLAYER

/-- resetBall from GameEngine.tsx, with the Math.random() value passed in. -/
def resetBall (turn : ServeTurn) (rand : ℚ) : Ball :=
  let speed : ℚ := 7
  let dirY : ℚ := if turn = .PLAYER then -1 else 1
  let randomX := (rand * 2 - 1) * 3
  { x := CANVAS_WIDTH / 2
  , y := if turn = .PLAYER
      then CANVAS_HEIGHT - WALL_OFFSET - PADDLE_HEIGHT - BALL_RADIUS - 10
      else WALL_OFFSET + PADDLE_HEIGHT + BALL_RADIUS + 10
  , dx := 0
  , dy := 0
  , baseSpeed := speed
  , launchDirY := dirY
  , launchDx := randomX }

/-- AI error drawn on entering a serve phase: (Math.random() - 0.5) * 50. -/
def aiErrorDrawServe (r : ℚ) : ℚ := (r - 1/2) * 50

/-- AI error drawn when the player's paddle hits the ball:
(Math.random() - 0.5) * 80. -/
def aiErrorDrawHit (r : ℚ) : ℚ := (r - 1/2) * 80

/-- startServePhase: enter SERVING, reset the ball for the current server and
redraw the AI error offset.  The countdown interval only writes UI display
state and is not part of the simulation state. -/
def startServePhase (s : EngineState) (env : Env) : EngineState :=
  { s with gameState := .SERVING
         , ball := resetBall s.serveTurn env.randLaunch
         , aiErrorOffset := aiErrorDrawServe env.randServeErr }

/-- startGame: zero the scores and serve counter, make the player the server,
then enter the serve phase. -/
def startGame (s : EngineState) (env : Env) : EngineState :=
  startServePhase
    { s with player := 0, ai := 0, servesCount := 0, serveTurn := .PLAYER } env

/-- triggerServe: launch the ball and enter PLAYING, only from SERVING. -/
def triggerServe (s : EngineState) : EngineState :=
  if s.gameState = .SERVING then
    { s with
        ball := { s.ball with
                    dy := s.ball.baseSpeed * s.ball.launchDirY
                  , dx := s.ball.launchDx }
      , gameState := .PLAYING }
  else s

/-- Post-point player score of scorePoint. -/
def postP (s : EngineState) (winner : ServeTurn) : ℕ :=
  if winner = .PLAYER then s.player + 1 else s.player

/-- Post-point AI score of scorePoint. -/
def postA (s : EngineState) (winner : ServeTurn) : ℕ :=
  if winner = .PLAYER then s.ai else s.ai + 1

/-- Win condition of scorePoint:
(p >= WINNING_SCORE or a >= WINNING_SCORE) and abs(p - a) >= 2. -/
def winCond (p a : ℕ) : Prop :=
  (WINNING_SCORE ≤ p ∨ WINNING_SCORE ≤ a) ∧ 2 ≤ ((p : ℤ) - (a : ℤ)).natAbs

instance (p a : ℕ) : Decidable (winCond p a) := by
  unfold winCond; infer_instance

/-- scorePoint from GameEngine.tsx: bump the winner's score; on the win
condition enter GAME_OVER and return; otherwise increment the serve counter,
switch the server every point at deuce (without touching the counter there),
or below deuce switch and reset the counter once it reaches 2, then re-enter
the serve phase. -/
def scorePoint (s : EngineState) (winner : ServeTurn) (env : Env) : EngineState :=
  let p := postP s winner
  let a := postA s winner
  let s1 := { s with player := p, ai := a }
  if winCond p a then
    { s1 with gameState := .GAME_OVER }
  else
    let cnt := s1.servesCount + 1
    if 10 ≤ p ∧ 10 ≤ a then
      startServePhase { s1 with servesCount := cnt, serveTurn := other s1.serveTurn } env
    else if 2 ≤ cnt then
      startServePhase { s1 with servesCount := 0, serveTurn := other s1.serveTurn } env
    else
      startServePhase { s1 with servesCount := cnt } env

/-- Clamp used for both paddles:
Math.max(PADDLE_WIDTH/2, Math.min(CANVAS_WIDTH - PADDLE_WIDTH/2, x)). -/
def clampX (x : ℚ) : ℚ :=
  max (PADDLE_WIDTH / 2) (min (CANVAS_WIDTH - PADDLE_WIDTH / 2) x)

/-- updatePlayerPaddle: mirror the raw x, scale to the canvas, lerp by 0.2
and clamp inside the walls. -/
def updatePlayerPaddle (s : EngineState) (h : HandInput) : EngineState :=
  let x := 1 - h.rawX
  let targetX := x * CANVAS_WIDTH
  let lerped := s.paddlePlayerX + (targetX - s.paddlePlayerX) * (1/5)
  { s with paddlePlayerX := clampX lerped }

/-- Section 1 of update: input processing.  A present frame zeroes the
missing-frame counter, raises handDetected (moving WAITING_FOR_HAND to MENU
and signalling detection when it was down), moves the paddle, then reacts to
the fist (start/restart) or index-bent (player serve) gestures.  An absent
frame bumps the counter and declares the hand lost only once the counter
passes 30. -/
def processInput (s : EngineState) (inp : Option HandInput) (env : Env) : EngineState :=
  match inp with
  | some h =>
      let s0 := { s with missingHandFrames := 0 }
      let s1 :=
        if s0.handDetected then s0
        else
          let s0 := { s0 with handDetected := true, handStatus := .handDetectedMsg }
          if s0.gameState = .WAITING_FOR_HAND then { s0 with gameState := .MENU } else s0
      let s2 := updatePlayerPaddle s1 h
      if (s2.gameState = .MENU ∨ s2.gameState = .GAME_OVER) ∧ h.fist then
        startGame s2 env
      else if s2.gameState = .SERVING ∧ s2.serveTurn = .PLAYER ∧ h.indexBent then
        triggerServe s2
      else s2
  | none =>
      let s0 := { s with missingHandFrames := s.missingHandFrames + 1 }
      if 30 < s0.missingHandFrames then
        if s0.handDetected then
          { s0 with handDetected := false, handStatus := .lostTracking }
        else s0
      else s0

/-- Section 2 of update: AI paddle movement during PLAYING or SERVING —
return to center while the ball moves away, otherwise track the ball plus
the cached error offset, rate-limited by PADDLE_SPEED_AI and clamped. -/
def aiMove (s : EngineState) : EngineState :=
  if s.gameState = .PLAYING ∨ s.gameState = .SERVING then
    let targetX :=
      if 0 < s.ball.dy ∧ s.gameState = .PLAYING then CANVAS_WIDTH / 2
      else s.ball.x + s.aiErrorOffset
    let diff := targetX - s.paddleAIX
    let moved :=
      if PADDLE_SPEED_AI < |diff| then
        s.paddleAIX + (if 0 < diff then PADDLE_SPEED_AI else -PADDLE_SPEED_AI)
      else targetX
    { s with paddleAIX := clampX moved }
  else s

def moveStep (b : Ball) : Ball := { b with x := b.x + b.dx, y := b.y + b.dy }

/-- Side-wall bounce: negate dx when the ball's extent passes either edge. -/
def wallStep (b : Ball) : Ball :=
  if b.x - BALL_RADIUS < 0 ∨ CANVAS_WIDTH < b.x + BALL_RADIUS then
    { b with dx := -b.dx }
  else b

/-- AI (top) paddle collision condition. -/
def aiHitCond (b : Ball) (aiX : ℚ) : Prop :=
  b.dy < 0 ∧ b.y - BALL_RADIUS < WALL_OFFSET + PADDLE_HEIGHT
    ∧ WALL_OFFSET - 5 < b.y - BALL_RADIUS
    ∧ |b.x - aiX| < PADDLE_WIDTH / 2 + BALL_RADIUS

instance (b : Ball) (aiX : ℚ) : Decidable (aiHitCond b aiX) := by
  unfold aiHitCond; infer_instance

/-- AI paddle collision response: speed up and flip dy by 1.05, spin dx by
the normalized impact times 10, and push the ball out of the paddle band. -/
def aiCollide (b : Ball) (aiX : ℚ) : Ball :=
  { b with dy := -b.dy * (21/20)
         , dx := ((b.x - aiX) / (PADDLE_WIDTH / 2)) * 10
         , y := WALL_OFFSET + PADDLE_HEIGHT + BALL_RADIUS + 1 }

/-- Player (bottom) paddle collision condition. -/
def playerHitCond (b : Ball) (pX : ℚ) : Prop :=
  0 < b.dy ∧ CANVAS_HEIGHT - WALL_OFFSET - PADDLE_HEIGHT < b.y + BALL_RADIUS
    ∧ b.y + BALL_RADIUS < CANVAS_HEIGHT - WALL_OFFSET + 5
    ∧ |b.x - pX| < PADDLE_WIDTH / 2 + BALL_RADIUS

instance (b : Ball) (pX : ℚ) : Decidable (playerHitCond b pX) := by
  unfold playerHitCond; infer_instance

/-- Player paddle collision response (same shape as the AI side). -/
def playerCollide (b : Ball) (pX : ℚ) : Ball :=
  { b with dy := -b.dy * (21/20)
         , dx := ((b.x - pX) / (PADDLE_WIDTH / 2)) * 10
         , y := CANVAS_HEIGHT - WALL_OFFSET - PADDLE_HEIGHT - BALL_RADIUS - 1 }

/-- Section 3 of update: ball physics during PLAYING (integrate, wall
bounce, paddle collisions — a player hit also redraws the AI error — then
the edge-crossing score checks) and the SERVING behaviour (ball pinned to
the serving paddle; the AI serves itself when its random draw is below
0.02). -/
def ballPhase (s : EngineState) (env : Env) : EngineState :=
  if s.gameState = .PLAYING then
    let b1 := wallStep (moveStep s.ball)
    let b2 := if aiHitCond b1 s.paddleAIX then aiCollide b1 s.paddleAIX else b1
    let s1 :=
      if playerHitCond b2 s.paddlePlayerX then
        { s with ball := playerCollide b2 s.paddlePlayerX
               , aiErrorOffset := aiErrorDrawHit env.randHitErr }
      else { s with ball := b2 }
    if s1.ball.y < 0 then scorePoint s1 .PLAYER env
    else if CANVAS_HEIGHT < s1.ball.y then scorePoint s1 .AI env
    else s1
  else if s.gameState = .SERVING then
    if s.serveTurn = .PLAYER then
      { s with ball := { s.ball with
          x := s.paddlePlayerX
        , y := CANVAS_HEIGHT - WALL_OFFSET - PADDLE_HEIGHT - BALL_RADIUS - 5 } }
    else
      let s1 := { s with ball := { s.ball with
          x := s.paddleAIX
        , y := WALL_OFFSET + PADDLE_HEIGHT + BALL_RADIUS + 5 } }
      if env.randAuto < 1/50 then triggerServe s1 else s1
  else s

/-- State after sections 1 and 2 of update, before the ball physics. -/
def preBall (s : EngineState) (inp : Option HandInput) (env : Env) : EngineState :=
  aiMove (processInput s inp env)

/-- One tick of the game loop's update(landmarks). -/
def update (s : EngineState) (inp : Option HandInput) (env : Env) : EngineState :=
  ballPhase (preBall s inp env) env

/-- Engine state when the render loop starts (onloadeddata), with the
initial resetBall draw passed in. -/
def initState (r : ℚ) : EngineState :=
  { paddlePlayerX := CANVAS_WIDTH / 2
  , paddleAIX := CANVAS_WIDTH / 2
  , ball := resetBall .PLAYER r
  , aiErrorOffset := 0
  , gameState := .WAITING_FOR_HAND
  , player := 0
  , ai := 0
  , serveTurn := .PLAYER
  , servesCount := 0
  , handDetected := false
  , missingHandFrames := 0
  , handStatus := .initialCamera }

/-- Run a sequence of ticks. -/
def run (s : EngineState) (l : List (Option HandInput × Env)) : EngineState :=
  l.foldl (fun t p => update t p.1 p.2) s

/-- Fold a sequence of scored points through scorePoint. -/
def playSeq (s : EngineState) (ws : List ServeTurn) (env : Env) : EngineState :=
  ws.foldl (fun t w => scorePoint t w env) s

/-- Server of each point in a sequence of scored points: the serve turn in
force when the point is played. -/
def serversOf (s : EngineState) (ws : List ServeTurn) (env : Env) : List ServeTurn :=
  match ws with
  | [] => []
  | w :: rest => s.serveTurn :: serversOf (scorePoint s w env) rest env

/-- Whether the optional hand input carries a fist gesture. -/
def inpFist : Option HandInput → Bool
  | some h => h.fist
  | none => false

/-- Paddle-center range [halfWidth, fieldWidth - halfWidth]. -/
def inRange (x : ℚ) : Prop :=
  PADDLE_WIDTH / 2 ≤ x ∧ x ≤ CANVAS_WIDTH - PADDLE_WIDTH / 2

end Forest


namespace Forest

/-- Concrete sample environment with all draws at one half. -/
def envHalf : Env := ⟨1/2, 1/2, 1/2, 1/2⟩

/-- Concrete finished-match state. -/
def goState : EngineState :=
  { paddlePlayerX := 640
  , paddleAIX := 640
  , ball := resetBall .PLAYER (1/2)
  , aiErrorOffset := 0
  , gameState := .GAME_OVER
  , player := 11
  , ai := 5
  , serveTurn := .PLAYER
  , servesCount := 0
  , handDetected := true
  , missingHandFrames := 0
  , handStatus := .handDetectedMsg }

/-- Match state at the first serve of a fresh game, ball launched. -/
def fiveStart : EngineState := triggerServe (startGame (initState (1/2)) envHalf)

/-- Winner sequence reaching deuce by alternation, then one more point. -/
def w21 : List ServeTurn :=
  (List.replicate 10 ([.PLAYER, .AI] : List ServeTurn)).flatten ++ [.PLAYER]

/-- Reachable 10-10 deuce state (after 20 alternating points the serve
counter sits at 2, never having been reset on the point that entered
deuce). -/
def deuceState : EngineState := playSeq fiveStart (w21.take 20) envHalf

/-- Concrete rally state: the ball one tick away from a centered player hit. -/
def c4State : EngineState :=
  { paddlePlayerX := 640
  , paddleAIX := 640
  , ball := { x := 640, y := 673, dx := 0, dy := 7, baseSpeed := 7
            , launchDirY := -1, launchDx := 0 }
  , aiErrorOffset := 0
  , gameState := .PLAYING
  , player := 3
  , ai := 2
  , serveTurn := .PLAYER
  , servesCount := 0
  , handDetected := true
  , missingHandFrames := 0
  , handStatus := .handDetectedMsg }

/-- Concrete serving state with the opponent as server. -/
def cs9 : EngineState := { goState with gameState := .SERVING, serveTurn := .AI }

/-- Environment whose auto-serve draw is below the 0.02 chance. -/
def envLow : Env := ⟨1/2, 1/2, 1/2, 1/100⟩

end Forest

namespace P2

-- The GameCanvas variant (src/unnamed/part_002).

def WINNING_SCORE : ℕ := 11

inductive Server where
  | player
  | ai
  deriving DecidableEq

def otherServer : Server → Server
  | .player => .ai
  | .ai => .player

structure MatchState where
  player : ℕ
  ai : ℕ
  server : Server
  servesCount : ℕ
  gameOver : Bool
  deriving DecidableEq

/-- checkWinCondition of GameCanvas. -/
def checkWinCondition (p a : ℕ) : Prop :=
  (WINNING_SCORE ≤ p ∨ WINNING_SCORE ≤ a) ∧ 2 ≤ ((p : ℤ) - (a : ℤ)).natAbs

instance (p a : ℕ) : Decidable (checkWinCondition p a) := by
  unfold checkWinCondition; infer_instance

/-- handleScoring of GameCanvas: bump the winner, stop on the win condition,
otherwise bump the serve counter and switch server (resetting the counter)
once the counter reaches the allowance — 1 at deuce, 2 below.  The
shouldSwitch computation in the source is dead code and the server change
is applied through resetBall(nextServer). -/
def handleScoring (m : MatchState) (winner : Server) : MatchState :=
  let p := if winner = .player then m.player + 1 else m.player
  let a := if winner = .player then m.ai else m.ai + 1
  let m1 := { m with player := p, ai := a }
  if checkWinCondition p a then
    { m1 with gameOver := true }
  else
    let cnt := m1.servesCount + 1
    let servesAllowed := if 10 ≤ p ∧ 10 ≤ a then 1 else 2
    if servesAllowed ≤ cnt then
      { m1 with server := otherServer m1.server, servesCount := 0 }
    else
      { m1 with servesCount := cnt }

/-- Effect of the reset effect of GameCanvas (on resetTrigger): zero scores,
player serves, serve counter zero. -/
def resetMatch (m : MatchState) : MatchState :=
  { m with player := 0, ai := 0, server := .player, servesCount := 0 }

/-- Serve branch of GameCanvas update: while the player serves the ball
launches exactly on the INDEX_BENT gesture; while the AI serves it launches
exactly when more than 1500 ms have passed since the serve timer was set,
with the gesture never consulted. -/
def serveLaunches (server : Server) (indexBent : Bool) (now serveTimer : ℚ) : Bool :=
  match server with
  | .player => indexBent
  | .ai => decide (1500 < now - serveTimer)

-- Ball physics of GameCanvas, over the reals (the collision response uses
-- sin/cos of the hit angle).

noncomputable section

def GAME_WIDTH : ℝ := 800

def GAME_HEIGHT : ℝ := 1200

def PADDLE_WIDTH : ℝ := 120

def PADDLE_HEIGHT : ℝ := 20

def BALL_RADIUS : ℝ := 12

structure Ball where
  x : ℝ
  y : ℝ
  dx : ℝ
  dy : ℝ
  speed : ℝ

/-- Player (bottom) paddle collision condition of GameCanvas. -/
def playerHitCond (b : Ball) (paddleX : ℝ) : Prop :=
  GAME_HEIGHT - PADDLE_HEIGHT - 10 < b.y + BALL_RADIUS
    ∧ b.y - BALL_RADIUS < GAME_HEIGHT - 10
    ∧ paddleX < b.x ∧ b.x < paddleX + PADDLE_WIDTH

/-- Player paddle collision response of GameCanvas: the speed grows by 1 up
to the explicit cap of 25, and the new velocity is the capped speed rotated
by the normalized-hit angle (at most 45 degrees). -/
def playerHit (b : Ball) (paddleX : ℝ) : Ball :=
  let hitPoint := b.x - (paddleX + PADDLE_WIDTH / 2)
  let normalizedHit := hitPoint / (PADDLE_WIDTH / 2)
  let angle := normalizedHit * (Real.pi / 4)
  let speed2 := min (b.speed + 1) 25
  { b with speed := speed2
         , dx := speed2 * Real.sin angle
         , dy := -(speed2 * Real.cos angle)
         , y := GAME_HEIGHT - PADDLE_HEIGHT - BALL_RADIUS - 10 }

/-- Ball arriving at the player's paddle at the speed cap, dead center. -/
def capBall : Ball := { x := 400, y := 1165, dx := 0, dy := 25, speed := 25 }

end

end P2

namespace Gest

-- Gesture classifier of GameEngine.tsx, over normalized camera space.

/-- Threshold FIST_THRESHOLD from constants.ts. -/
noncomputable def FIST_THRESHOLD : ℝ := 0.08

structure LPoint where
  x : ℝ
  y : ℝ

/-- Well-formed hand frame: exactly 21 landmarks. -/
def HandFrame := Fin 21 → LPoint

noncomputable def ldist (a b : LPoint) : ℝ :=
  Real.sqrt ((a.x - b.x) ^ 2 + (a.y - b.y) ^ 2)

/-- Average fingertip-to-wrist distance of isFist: the reduce over the tips
[8, 12, 16, 20], divided by 4. -/
noncomputable def avgTipWristDist (lm : HandFrame) : ℝ :=
  (([8, 12, 16, 20] : List (Fin 21)).map
      (fun i => ldist (lm i) (lm 0))).foldl (fun acc d => acc + d) 0 / 4

/-- isFist of GameEngine.tsx: average tip-to-wrist distance strictly below
the fist threshold. -/
def isFist (lm : HandFrame) : Prop :=
  avgTipWristDist lm < FIST_THRESHOLD

/-- Mean Euclidean tip-to-wrist distance as the spec words it: the
arithmetic mean of the four non-thumb fingertip distances to the wrist. -/
noncomputable def meanTipWristDistSpec (lm : HandFrame) : ℝ :=
  (ldist (lm 8) (lm 0) + ldist (lm 12) (lm 0)
    + ldist (lm 16) (lm 0) + ldist (lm 20) (lm 0)) / 4

/-- Frame whose four fingertips sit exactly at the fist threshold distance
from the wrist. -/
noncomputable def boundaryFrame : HandFrame := fun i =>
  if i.val = 8 ∨ i.val = 12 ∨ i.val = 16 ∨ i.val = 20 then ⟨0.08, 0⟩ else ⟨0, 0⟩

end Gest





set_option maxHeartbeats 1000000
set_option maxRecDepth 100000

namespace Forest

theorem aiMove_gameState (s : EngineState) : (aiMove s).gameState = s.gameState := by
  simp only [aiMove]
  split <;> rfl

theorem processInput_gameOver {s : EngineState} {inp : Option HandInput} {env : Env}
    (h : (processInput s inp env).gameState = .GAME_OVER) :
    s.gameState = .GAME_OVER := by
  cases inp with
  | none =>
      simp only [processInput] at h
      split_ifs at h <;> simpa using h
  | some hi =>
      simp only [processInput, updatePlayerPaddle, startGame, startServePhase,
        triggerServe] at h
      split_ifs at h <;> simp_all

theorem scorePoint_gameOver_iff (s : EngineState) (w : ServeTurn) (env : Env) :
    (scorePoint s w env).gameState = .GAME_OVER ↔ winCond (postP s w) (postA s w) := by
  simp only [scorePoint, startServePhase]
  split_ifs <;> simp_all

end Forest

namespace Forest

theorem aiMove_fields (s : EngineState) :
    (aiMove s).ball = s.ball ∧ (aiMove s).aiErrorOffset = s.aiErrorOffset
      ∧ (aiMove s).paddlePlayerX = s.paddlePlayerX
      ∧ (aiMove s).player = s.player ∧ (aiMove s).ai = s.ai
      ∧ (aiMove s).serveTurn = s.serveTurn ∧ (aiMove s).servesCount = s.servesCount
      ∧ (aiMove s).handDetected = s.handDetected
      ∧ (aiMove s).missingHandFrames = s.missingHandFrames
      ∧ (aiMove s).handStatus = s.handStatus := by
  simp only [aiMove]
  split <;> simp

theorem ballPhase_paddles (s : EngineState) (env : Env) :
    (ballPhase s env).paddlePlayerX = s.paddlePlayerX
      ∧ (ballPhase s env).paddleAIX = s.paddleAIX := by
  simp only [ballPhase, scorePoint, startServePhase, triggerServe]
  split_ifs <;> simp

theorem ballPhase_detect (s : EngineState) (env : Env) :
    (ballPhase s env).handDetected = s.handDetected
      ∧ (ballPhase s env).missingHandFrames = s.missingHandFrames
      ∧ (ballPhase s env).handStatus = s.handStatus := by
  simp only [ballPhase, scorePoint, startServePhase, triggerServe]
  split_ifs <;> simp

theorem processInput_paddleAI (s : EngineState) (inp : Option HandInput) (env : Env) :
    (processInput s inp env).paddleAIX = s.paddleAIX := by
  cases inp with
  | none =>
      simp only [processInput]
      split_ifs <;> simp
  | some hi =>
      simp only [processInput, updatePlayerPaddle, startGame, startServePhase,
        triggerServe]
      split_ifs <;> simp

theorem clampX_inRange (x : ℚ) : inRange (clampX x) := by
  constructor
  · exact le_max_left _ _
  · refine max_le ?_ (min_le_left _ _)
    norm_num [PADDLE_WIDTH, CANVAS_WIDTH]

theorem processInput_none_paddlePlayer (s : EngineState) (env : Env) :
    (processInput s none env).paddlePlayerX = s.paddlePlayerX := by
  simp only [processInput]
  split_ifs <;> simp

theorem processInput_some_paddlePlayer (s : EngineState) (hi : HandInput) (env : Env) :
    (processInput s (some hi) env).paddlePlayerX
      = clampX (s.paddlePlayerX + ((1 - hi.rawX) * CANVAS_WIDTH - s.paddlePlayerX) * (1/5)) := by
  simp only [processInput, updatePlayerPaddle, startGame, startServePhase, triggerServe]
  split_ifs <;> simp

theorem aiMove_paddleAI (s : EngineState) :
    (aiMove s).paddleAIX = s.paddleAIX ∨ inRange (aiMove s).paddleAIX := by
  simp only [aiMove]
  split_ifs <;>
    first
      | (left; rfl)
      | (right; simpa using clampX_inRange _)

end Forest

namespace Forest

theorem scorePoint_scores (s : EngineState) (w : ServeTurn) (env : Env) :
    (scorePoint s w env).player = postP s w ∧ (scorePoint s w env).ai = postA s w := by
  simp only [scorePoint, startServePhase]
  split_ifs <;> simp

theorem ballPhase_gameOver {s : EngineState} {env : Env}
    (h : (ballPhase s env).gameState = .GAME_OVER) :
    s.gameState = .GAME_OVER
      ∨ winCond (ballPhase s env).player (ballPhase s env).ai := by
  simp only [ballPhase] at h ⊢
  split_ifs at h ⊢
  all_goals
    try (right
         rw [(scorePoint_scores _ _ _).1, (scorePoint_scores _ _ _).2]
         exact (scorePoint_gameOver_iff _ _ _).mp h)
  all_goals try exact Or.inl h
  all_goals simp_all [triggerServe]

theorem scorePoint_offset (s : EngineState) (w : ServeTurn) (env : Env) :
    ((scorePoint s w env).aiErrorOffset = s.aiErrorOffset
        ∧ (scorePoint s w env).gameState = .GAME_OVER)
      ∨ ((scorePoint s w env).aiErrorOffset = aiErrorDrawServe env.randServeErr
        ∧ (scorePoint s w env).gameState = .SERVING) := by
  simp only [scorePoint, startServePhase]
  split_ifs <;> simp

theorem ballPhase_offset (s : EngineState) (env : Env) :
    (ballPhase s env).aiErrorOffset = s.aiErrorOffset
      ∨ ((ballPhase s env).aiErrorOffset = aiErrorDrawServe env.randServeErr
          ∧ (ballPhase s env).gameState = .SERVING ∧ s.gameState = .PLAYING)
      ∨ ((ballPhase s env).aiErrorOffset = aiErrorDrawHit env.randHitErr
          ∧ s.gameState = .PLAYING) := by
  simp only [ballPhase]
  split_ifs with h1 <;>
    first
      | (left; simp [triggerServe]; split_ifs <;> rfl)
      | skip
  all_goals
    first
      | (exfalso
         simp_all [playerCollide, aiCollide, CANVAS_HEIGHT, WALL_OFFSET,
           PADDLE_HEIGHT, BALL_RADIUS]
         all_goals norm_num at *
         done)
      | (rcases scorePoint_offset _ _ env with ⟨ho, _⟩ | ⟨ho, hg⟩
         · left
           simpa using ho
         · right; left
           refine ⟨by simpa using ho, by simpa using hg, h1⟩)
      | (left; simp; done)
      | (right; right; exact ⟨by simp, h1⟩)

theorem processInput_offset (s : EngineState) (inp : Option HandInput) (env : Env) :
    (processInput s inp env).aiErrorOffset = s.aiErrorOffset
      ∨ ((processInput s inp env).aiErrorOffset = aiErrorDrawServe env.randServeErr
          ∧ (processInput s inp env).gameState = .SERVING
          ∧ (processInput s inp env).serveTurn = .PLAYER) := by
  cases inp with
  | none =>
      left
      simp only [processInput]
      split_ifs <;> simp
  | some hi =>
      simp only [processInput, updatePlayerPaddle, startGame, startServePhase,
        triggerServe]
      split_ifs <;> simp

theorem ballPhase_servingPlayer {s : EngineState} (env : Env)
    (h1 : s.gameState = .SERVING) (h2 : s.serveTurn = .PLAYER) :
    (ballPhase s env).gameState = .SERVING
      ∧ (ballPhase s env).aiErrorOffset = s.aiErrorOffset := by
  simp only [ballPhase]
  split_ifs <;> simp_all

end Forest

namespace Forest

theorem processInput_none_gameState (s : EngineState) (env : Env) :
    (processInput s none env).gameState = s.gameState
      ∧ (processInput s none env).serveTurn = s.serveTurn := by
  simp only [processInput]
  split_ifs <;> simp

theorem processInput_gameOver_fist {s : EngineState} {hi : HandInput} (env : Env)
    (hgo : s.gameState = .GAME_OVER) (hf : hi.fist = true) :
    (processInput s (some hi) env).gameState = .SERVING
      ∧ (processInput s (some hi) env).serveTurn = .PLAYER := by
  simp only [processInput, updatePlayerPaddle, startGame, startServePhase]
  split_ifs <;> simp_all

theorem processInput_gameOver_nofist {s : EngineState} {hi : HandInput} (env : Env)
    (hgo : s.gameState = .GAME_OVER) (hf : hi.fist = false) :
    (processInput s (some hi) env).gameState = .GAME_OVER := by
  simp only [processInput, updatePlayerPaddle, startGame, startServePhase, triggerServe]
  split_ifs <;> simp_all

theorem ballPhase_other {s : EngineState} (env : Env)
    (h1 : s.gameState ≠ .PLAYING) (h2 : s.gameState ≠ .SERVING) :
    ballPhase s env = s := by
  simp only [ballPhase]
  split_ifs <;> simp_all


end Forest

open Forest in
/-- C1: scorePoint enters GAME_OVER exactly when the post-point scores
satisfy max(p,o) >= WINNING_SCORE and abs(p-o) >= 2 (so never at an earlier
score), and from GAME_OVER a tick stays in GAME_OVER unless the explicit
fist restart is seen, in which case it enters SERVING; moreover a tick ends
in GAME_OVER only if it started there or the post-point scores of that tick
meet the win condition. -/
theorem C1_gameover_iff_and_terminal :
    (∀ (s : EngineState) (w : ServeTurn) (env : Env),
        ((scorePoint s w env).gameState = .GAME_OVER
          ↔ (WINNING_SCORE ≤ max (postP s w) (postA s w)
              ∧ 2 ≤ ((postP s w : ℤ) - (postA s w : ℤ)).natAbs)))
      ∧ (∀ (s : EngineState) (inp : Option HandInput) (env : Env),
          s.gameState = .GAME_OVER →
            (update s inp env).gameState
              = (if inpFist inp then GState.SERVING else GState.GAME_OVER))
      ∧ (∀ (s : EngineState) (inp : Option HandInput) (env : Env),
          (update s inp env).gameState = .GAME_OVER →
            s.gameState = .GAME_OVER
              ∨ winCond (update s inp env).player (update s inp env).ai) := by
  refine ⟨?_, ?_, ?_⟩
  · intro s w env
    rw [scorePoint_gameOver_iff]
    simp [winCond, le_max_iff]
  · intro s inp env hgo
    cases inp with
    | none =>
        have h1 := processInput_none_gameState s env
        have h2 := aiMove_gameState (processInput s none env)
        have h3 := ballPhase_other (s := aiMove (processInput s none env)) env
          (by rw [h2, h1.1, hgo]; intro hc; exact absurd hc (by decide))
          (by rw [h2, h1.1, hgo]; intro hc; exact absurd hc (by decide))
        simp only [update, preBall, inpFist, h3, h2, h1.1, hgo, if_false,
          Bool.false_eq_true]
    | some hi =>
        cases hf : hi.fist with
        | true =>
            have h1 := processInput_gameOver_fist env hgo hf
            have h2 := aiMove_gameState (processInput s (some hi) env)
            have h4 := (aiMove_fields (processInput s (some hi) env)).2.2.2.2.2.1
            have h3 := ballPhase_servingPlayer (s := aiMove (processInput s (some hi) env)) env
              (by rw [h2, h1.1]) (by rw [h4, h1.2])
            simp only [update, preBall, inpFist, hf, if_true, h3.1]
        | false =>
            have h1 := processInput_gameOver_nofist env hgo hf
            have h2 := aiMove_gameState (processInput s (some hi) env)
            have h3 := ballPhase_other (s := aiMove (processInput s (some hi) env)) env
              (by rw [h2, h1]; intro hc; exact absurd hc (by decide))
              (by rw [h2, h1]; intro hc; exact absurd hc (by decide))
            simp only [update, preBall, inpFist, hf, h3, h2, h1, if_false,
              Bool.false_eq_true]
  · intro s inp env h
    have h3 := ballPhase_gameOver
      (show (ballPhase (aiMove (processInput s inp env)) env).gameState
          = .GAME_OVER from h)
    rcases h3 with h3 | h3
    · left
      rw [aiMove_gameState] at h3
      exact processInput_gameOver h3
    · right
      exact h3

open Forest in
/-- Witness for C1: in the concrete finished match, a tick with no hand
input leaves the state in GAME_OVER. -/
theorem C1_witness :
    goState.gameState = GState.GAME_OVER
      ∧ (Forest.update goState none envHalf).gameState = GState.GAME_OVER := by
  refine ⟨rfl, ?_⟩
  have h := C1_gameover_iff_and_terminal.2.1 goState none envHalf rfl
  simpa [inpFist] using h

namespace Forest

theorem other_ne (t : ServeTurn) : other t ≠ t := by
  cases t <;> decide


end Forest

open Forest in
/-- C2: on a point that does not end the match, the server switches after
every single point whenever both post-point scores are at least 10 (deuce),
with no restriction on the counter; below deuce, the server switches
exactly when the incremented counter reaches at least 2 — which, from the
reachable counters there (at most 1, an invariant the counter-preservation
conjunct proves), means exactly when it reaches 2; and on the concrete
winner sequence P,P,A,A,P from a fresh game the servers are P,P,A,A,P
(switches after the 2nd and 4th points). -/
theorem C2_serve_rotation :
    (∀ (s : EngineState) (w : ServeTurn) (env : Env),
        ¬ winCond (postP s w) (postA s w) →
        (10 ≤ postP s w ∧ 10 ≤ postA s w) →
          (scorePoint s w env).serveTurn ≠ s.serveTurn)
      ∧ (∀ (s : EngineState) (w : ServeTurn) (env : Env),
          ¬ winCond (postP s w) (postA s w) →
          ¬(10 ≤ postP s w ∧ 10 ≤ postA s w) →
            (((scorePoint s w env).serveTurn ≠ s.serveTurn
                ↔ 2 ≤ s.servesCount + 1)
              ∧ (s.servesCount ≤ 1 →
                  ((scorePoint s w env).serveTurn ≠ s.serveTurn
                    ↔ s.servesCount + 1 = 2))))
      ∧ (∀ (s : EngineState) (w : ServeTurn) (env : Env),
          (¬(10 ≤ s.player ∧ 10 ≤ s.ai) → s.servesCount ≤ 1) →
          ¬(10 ≤ (scorePoint s w env).player ∧ 10 ≤ (scorePoint s w env).ai) →
            (scorePoint s w env).servesCount ≤ 1)
      ∧ serversOf fiveStart [.PLAYER, .PLAYER, .AI, .AI, .PLAYER] envHalf
          = [.PLAYER, .PLAYER, .AI, .AI, .PLAYER] := by
  refine ⟨?_, ?_, ?_, ?_⟩
  · intro s w env hw hd
    simp only [scorePoint, startServePhase]
    rw [if_neg hw, if_pos hd]
    simpa using other_ne s.serveTurn
  · intro s w env hw hd
    constructor
    · simp only [scorePoint, startServePhase]
      rw [if_neg hw, if_neg hd]
      split_ifs with hcnt
      · simpa [other_ne] using hcnt
      · simpa using hcnt
    · intro hc
      simp only [scorePoint, startServePhase]
      rw [if_neg hw, if_neg hd]
      split_ifs with hcnt
      · simp only [other_ne, ne_eq]
        constructor
        · intro _
          omega
        · intro _
          simp [other_ne]
      · constructor
        · intro hcontra
          simp at hcontra
        · intro hne
          omega
  · intro s w env h1 h2
    have hsc := scorePoint_scores s w env
    cases w <;>
      simp_all [scorePoint, startServePhase, postP, postA] <;>
      split_ifs <;> simp_all <;> omega
  · decide

open Forest in
/-- Witness for C2: at the reachable 10-10 deuce state — whose counter
already sits at 2 — the next point still switches the server, and from the
fresh-game state (counter 0) a first below-deuce point switches exactly
when the counter would reach 2, i.e. not yet. -/
theorem C2_witness :
    ((scorePoint deuceState .PLAYER envHalf).serveTurn ≠ deuceState.serveTurn)
      ∧ deuceState.servesCount = 2
      ∧ ((scorePoint fiveStart .PLAYER envHalf).serveTurn ≠ fiveStart.serveTurn
          ↔ fiveStart.servesCount + 1 = 2) := by
  refine ⟨?_, by decide, ?_⟩
  · exact C2_serve_rotation.1 deuceState .PLAYER envHalf (by decide) (by decide)
  · exact (C2_serve_rotation.2.1 fiveStart .PLAYER envHalf (by decide) (by decide)).2
      (by decide)

open Forest in
/-- Counterexample for C3: after 20 alternating points the match is at
deuce 10-10; the 21st point switches the server but leaves the
consecutive-serve counter nonzero, so the counter is not reset in the same
transition in which the server changes. -/
theorem C3_counterexample :
    (playSeq fiveStart (w21.take 20) envHalf).serveTurn
        ≠ (playSeq fiveStart w21 envHalf).serveTurn
      ∧ (playSeq fiveStart w21 envHalf).servesCount ≠ 0 := by
  decide

open Forest in
/-- C3 (amended): below deuce, whenever scorePoint changes the server the
consecutive-serve counter is reset to 0 in the same transition; in the
GameCanvas variant the reset accompanies every server change, deuce
included.  (At deuce the Forest engine switches the server without
resetting the counter — see the counterexample.) -/
theorem C3_reset_on_switch :
    (∀ (s : EngineState) (w : ServeTurn) (env : Env),
        ¬(10 ≤ postP s w ∧ 10 ≤ postA s w) →
        (scorePoint s w env).serveTurn ≠ s.serveTurn →
          (scorePoint s w env).servesCount = 0)
      ∧ (∀ (m : P2.MatchState) (w : P2.Server),
          (P2.handleScoring m w).server ≠ m.server →
            (P2.handleScoring m w).servesCount = 0) := by
  constructor
  · intro s w env hd hs
    simp only [scorePoint, startServePhase] at hs ⊢
    split_ifs at hs ⊢ <;> simp_all
  · intro m w hs
    simp only [P2.handleScoring] at hs ⊢
    split_ifs at hs ⊢ <;> simp_all

open Forest in
/-- Witness for C3: a concrete below-deuce point that switches the server
leaves the counter at 0. -/
theorem C3_witness :
    (scorePoint (scorePoint fiveStart .PLAYER envHalf) .PLAYER envHalf).servesCount
      = 0 := by
  refine C3_reset_on_switch.1 _ .PLAYER envHalf (by decide) (by decide)

namespace Forest

theorem wallStep_moveStep_dy (b : Ball) : (wallStep (moveStep b)).dy = b.dy := by
  simp only [wallStep, moveStep]
  split_ifs <;> rfl

theorem no_player_hit_after_ai (b : Ball) (aiX pX : ℚ) :
    ¬ playerHitCond (aiCollide b aiX) pX := by
  intro h
  have h2 := h.2.1
  simp only [aiCollide] at h2
  norm_num [CANVAS_HEIGHT, WALL_OFFSET, PADDLE_HEIGHT, BALL_RADIUS] at h2

theorem collide_dy_abs (b : Ball) (x : ℚ) :
    |(aiCollide b x).dy| = (21/20) * |b.dy|
      ∧ |(playerCollide b x).dy| = (21/20) * |b.dy| := by
  constructor <;>
    · simp only [aiCollide, playerCollide]
      rw [abs_mul, abs_neg]
      rw [abs_of_pos (by norm_num : (0:ℚ) < 21/20)]
      ring

theorem abs_lt_speedup {d : ℚ} (h : d ≠ 0) : |d| < (21/20) * |d| := by
  have h1 : 0 < |d| := abs_pos.mpr h
  nlinarith

end Forest

open Forest in
/-- C4 (amended): in the Forest engine each paddle hit multiplies the
vertical velocity magnitude by exactly 21/20 = 1.05 with no cap, hence the
magnitude strictly increases on every hit with nonzero vertical speed and
grows monotonically across a rally; this holds both for the collision
responses themselves and through a full tick in which a hit fires.  (In the
GameCanvas variant the speed grows additively with an explicit cap of 25,
so the strict increase fails there — see the counterexample.) -/
theorem C4_vertical_speedup :
    (∀ (b : Ball) (x : ℚ),
        (|(aiCollide b x).dy| = (21/20) * |b.dy|
            ∧ (b.dy ≠ 0 → |b.dy| < |(aiCollide b x).dy|))
          ∧ (|(playerCollide b x).dy| = (21/20) * |b.dy|
            ∧ (b.dy ≠ 0 → |b.dy| < |(playerCollide b x).dy|)))
      ∧ (∀ (s : EngineState) (inp : Option HandInput) (env : Env),
          (preBall s inp env).gameState = .PLAYING →
          (aiHitCond (wallStep (moveStep (preBall s inp env).ball))
              (preBall s inp env).paddleAIX
            ∨ playerHitCond (wallStep (moveStep (preBall s inp env).ball))
                (preBall s inp env).paddlePlayerX) →
            |(update s inp env).ball.dy|
              = (21/20) * |(preBall s inp env).ball.dy|) := by
  constructor
  · intro b x
    refine ⟨⟨(collide_dy_abs b x).1, ?_⟩, ⟨(collide_dy_abs b x).2, ?_⟩⟩
    · intro h
      rw [(collide_dy_abs b x).1]
      exact abs_lt_speedup h
    · intro h
      rw [(collide_dy_abs b x).2]
      exact abs_lt_speedup h
  · intro s inp env hplay hhit
    have hdy := wallStep_moveStep_dy (preBall s inp env).ball
    rw [show update s inp env = ballPhase (preBall s inp env) env from rfl]
    simp only [ballPhase, hplay, if_pos]
    by_cases hai : aiHitCond (wallStep (moveStep (preBall s inp env).ball))
        (preBall s inp env).paddleAIX
    · rw [if_pos hai]
      rw [if_neg (no_player_hit_after_ai _ _ _)]
      rw [if_neg (by
        simp only [aiCollide]
        norm_num [WALL_OFFSET, PADDLE_HEIGHT, BALL_RADIUS])]
      rw [if_neg (by
        simp only [aiCollide]
        norm_num [CANVAS_HEIGHT, WALL_OFFSET, PADDLE_HEIGHT, BALL_RADIUS])]
      simp only [(collide_dy_abs _ _).1, hdy]
    · rcases hhit with h | h
      · exact absurd h hai
      · rw [if_neg hai, if_pos h]
        rw [if_neg (by
          simp only [playerCollide]
          norm_num [CANVAS_HEIGHT, WALL_OFFSET, PADDLE_HEIGHT, BALL_RADIUS])]
        rw [if_neg (by
          simp only [playerCollide]
          norm_num [CANVAS_HEIGHT, WALL_OFFSET, PADDLE_HEIGHT, BALL_RADIUS])]
        simp only [(collide_dy_abs _ _).2, hdy]

namespace Forest


end Forest

open Forest in
/-- Witness for C4: a concrete tick with a centered player-paddle hit takes
the vertical speed from 7 to 147/20 = 7 * 1.05. -/
theorem C4_witness :
    (preBall c4State none envHalf).gameState = GState.PLAYING
      ∧ playerHitCond (wallStep (moveStep (preBall c4State none envHalf).ball))
          (preBall c4State none envHalf).paddlePlayerX
      ∧ |(Forest.update c4State none envHalf).ball.dy|
          = (21/20) * |(preBall c4State none envHalf).ball.dy|
      ∧ |(Forest.update c4State none envHalf).ball.dy| = 147/20 := by
  have hg : (preBall c4State none envHalf).gameState = GState.PLAYING := by
    norm_num [preBall, processInput, aiMove, updatePlayerPaddle, clampX, c4State,
      envHalf, CANVAS_WIDTH, PADDLE_WIDTH, PADDLE_SPEED_AI]
  have hc : playerHitCond (wallStep (moveStep (preBall c4State none envHalf).ball))
      (preBall c4State none envHalf).paddlePlayerX := by
    norm_num [preBall, processInput, aiMove, updatePlayerPaddle, clampX, c4State,
      envHalf, moveStep, wallStep, playerHitCond, aiHitCond, CANVAS_WIDTH,
      CANVAS_HEIGHT, PADDLE_WIDTH, PADDLE_HEIGHT, BALL_RADIUS, WALL_OFFSET,
      PADDLE_SPEED_AI]
  have heq := C4_vertical_speedup.2 c4State none envHalf hg (Or.inr hc)
  refine ⟨hg, hc, heq, ?_⟩
  rw [heq]
  have hdy : (preBall c4State none envHalf).ball.dy = 7 := by
    norm_num [preBall, processInput, aiMove, updatePlayerPaddle, clampX, c4State,
      envHalf, CANVAS_WIDTH, PADDLE_WIDTH, PADDLE_SPEED_AI]
  rw [hdy]
  norm_num

/-- Counterexample for C4: in the GameCanvas variant a legitimate centered
player-paddle hit at the speed cap leaves the vertical speed at 25, so the
magnitude does not strictly increase and no fixed factor greater than 1 is
applied. -/
theorem C4_counterexample :
    P2.playerHitCond P2.capBall 340
      ∧ P2.capBall.dy = 25
      ∧ (P2.playerHit P2.capBall 340).dy = -25
      ∧ ¬ (|P2.capBall.dy| < |(P2.playerHit P2.capBall 340).dy|) := by
  refine ⟨?_, rfl, ?_, ?_⟩
  · norm_num [P2.playerHitCond, P2.capBall, P2.GAME_HEIGHT, P2.PADDLE_HEIGHT,
      P2.BALL_RADIUS, P2.PADDLE_WIDTH]
  · simp only [P2.playerHit, P2.capBall, P2.PADDLE_WIDTH, P2.GAME_HEIGHT,
      P2.PADDLE_HEIGHT, P2.BALL_RADIUS]
    norm_num [Real.cos_zero]
  · simp only [P2.playerHit, P2.capBall, P2.PADDLE_WIDTH, P2.GAME_HEIGHT,
      P2.PADDLE_HEIGHT, P2.BALL_RADIUS]
    norm_num [Real.cos_zero]

open Forest in
/-- C5 (amended): across any tick the opponent's cached error offset is
either unchanged or freshly drawn at exactly one of the two events — entry
into a new serve phase (leaving the tick in SERVING) or a player paddle
contact during active play; the serve-entry draw is bounded by 25 in
magnitude while the post-hit draw is bounded by 40 and exceeds 25 for some
draws, i.e. the serve-entry range is the narrower one. -/
theorem C5_offset_mutation :
    (∀ (s : EngineState) (inp : Option HandInput) (env : Env),
        (Forest.update s inp env).aiErrorOffset = s.aiErrorOffset
          ∨ ((Forest.update s inp env).aiErrorOffset = aiErrorDrawServe env.randServeErr
              ∧ (Forest.update s inp env).gameState = GState.SERVING)
          ∨ ((Forest.update s inp env).aiErrorOffset = aiErrorDrawHit env.randHitErr
              ∧ (preBall s inp env).gameState = GState.PLAYING))
      ∧ (∀ r : ℚ, 0 ≤ r → r ≤ 1 → |aiErrorDrawServe r| ≤ 25)
      ∧ (∀ r : ℚ, 0 ≤ r → r ≤ 1 → |aiErrorDrawHit r| ≤ 40)
      ∧ (25 : ℚ) < aiErrorDrawHit (39/40) := by
  refine ⟨?_, ?_, ?_, by norm_num [aiErrorDrawHit]⟩
  · intro s inp env
    have hup : Forest.update s inp env
        = ballPhase (aiMove (processInput s inp env)) env := rfl
    have hoff := (aiMove_fields (processInput s inp env)).2.1
    have hgs := aiMove_gameState (processInput s inp env)
    have hst := (aiMove_fields (processInput s inp env)).2.2.2.2.2.1
    rcases ballPhase_offset (aiMove (processInput s inp env)) env with h | ⟨h1, h2, _⟩ | ⟨h1, h2⟩
    · rw [hup, h, hoff]
      rcases processInput_offset s inp env with hp | ⟨hp1, hp2, hp3⟩
      · exact Or.inl hp
      · right
        left
        refine ⟨hp1, ?_⟩
        exact (ballPhase_servingPlayer env (by rw [hgs]; exact hp2)
          (by rw [hst]; exact hp3)).1
    · right
      left
      rw [hup]
      exact ⟨h1, h2⟩
    · right
      right
      rw [hup]
      exact ⟨h1, by rw [preBall, h2]⟩
  · intro r h0 h1
    rw [aiErrorDrawServe, abs_mul]
    have hb : |r - 1/2| ≤ 1/2 := abs_le.mpr ⟨by linarith, by linarith⟩
    calc |r - 1/2| * |(50 : ℚ)| ≤ (1/2) * 50 := by
          rw [show |(50:ℚ)| = 50 by norm_num]
          nlinarith
      _ = 25 := by norm_num
  · intro r h0 h1
    rw [aiErrorDrawHit, abs_mul]
    have hb : |r - 1/2| ≤ 1/2 := abs_le.mpr ⟨by linarith, by linarith⟩
    calc |r - 1/2| * |(80 : ℚ)| ≤ (1/2) * 80 := by
          rw [show |(80:ℚ)| = 80 by norm_num]
          nlinarith
      _ = 40 := by norm_num

open Forest in
/-- Witness for C5: both bounds instantiated at concrete draws, and the
mutation alternative instantiated at a concrete tick. -/
theorem C5_witness :
    ((Forest.update goState none envHalf).aiErrorOffset = goState.aiErrorOffset
        ∨ ((Forest.update goState none envHalf).aiErrorOffset
              = aiErrorDrawServe envHalf.randServeErr
            ∧ (Forest.update goState none envHalf).gameState = GState.SERVING)
        ∨ ((Forest.update goState none envHalf).aiErrorOffset
              = aiErrorDrawHit envHalf.randHitErr
            ∧ (preBall goState none envHalf).gameState = GState.PLAYING))
      ∧ |aiErrorDrawServe (3/4)| ≤ 25 ∧ |aiErrorDrawHit (3/4)| ≤ 40 := by
  exact ⟨C5_offset_mutation.1 goState none envHalf,
    C5_offset_mutation.2.1 (3/4) (by norm_num) (by norm_num),
    C5_offset_mutation.2.2.1 (3/4) (by norm_num) (by norm_num)⟩

open Forest in
/-- Counterexample for C5: the serve-entry draw spans a width-50 interval
while the post-hit draw spans a width-80 interval, so the serve-entry range
is not wider than the post-hit range. -/
theorem C5_counterexample :
    aiErrorDrawServe 1 - aiErrorDrawServe 0 = 50
      ∧ aiErrorDrawHit 1 - aiErrorDrawHit 0 = 80
      ∧ ¬ (aiErrorDrawHit 1 - aiErrorDrawHit 0
            < aiErrorDrawServe 1 - aiErrorDrawServe 0) := by
  norm_num [aiErrorDrawServe, aiErrorDrawHit]

namespace Forest

theorem update_paddles_inRange {s : EngineState} (inp : Option HandInput) (env : Env)
    (hp : inRange s.paddlePlayerX) (ha : inRange s.paddleAIX) :
    inRange (update s inp env).paddlePlayerX ∧ inRange (update s inp env).paddleAIX := by
  have hbp := ballPhase_paddles (aiMove (processInput s inp env)) env
  have hup : update s inp env = ballPhase (aiMove (processInput s inp env)) env := rfl
  constructor
  · rw [hup, hbp.1, (aiMove_fields (processInput s inp env)).2.2.1]
    cases inp with
    | none =>
        rw [processInput_none_paddlePlayer]
        exact hp
    | some hi =>
        rw [processInput_some_paddlePlayer]
        exact clampX_inRange _
  · rw [hup, hbp.2]
    rcases aiMove_paddleAI (processInput s inp env) with h | h
    · rw [h, processInput_paddleAI]
      exact ha
    · exact h

theorem run_paddles_inRange (l : List (Option HandInput × Env)) {s : EngineState}
    (hp : inRange s.paddlePlayerX) (ha : inRange s.paddleAIX) :
    inRange (run s l).paddlePlayerX ∧ inRange (run s l).paddleAIX := by
  induction l generalizing s with
  | nil => exact ⟨hp, ha⟩
  | cons hd tl ih =>
      have hstep := update_paddles_inRange hd.1 hd.2 hp ha
      exact ih hstep.1 hstep.2

end Forest

open Forest in
/-- C6: from the initial engine state, after any sequence of ticks with
arbitrary hand inputs (including out-of-range target coordinates) and
random draws, both paddle centers remain within
[paddleHalfWidth, fieldWidth - paddleHalfWidth]. -/
theorem C6_paddles_in_range (r : ℚ) (l : List (Option HandInput × Env)) :
    inRange (run (initState r) l).paddlePlayerX
      ∧ inRange (run (initState r) l).paddleAIX := by
  refine run_paddles_inRange l ?_ ?_ <;>
    norm_num [initState, inRange, CANVAS_WIDTH, PADDLE_WIDTH]

namespace Gest

theorem avg_eq_mean (lm : HandFrame) :
    avgTipWristDist lm = meanTipWristDistSpec lm := by
  simp only [avgTipWristDist, meanTipWristDistSpec, List.map, List.foldl]
  ring

end Gest

/-- C7: isFist holds exactly when the mean Euclidean distance from the four
non-thumb fingertip landmarks (8, 12, 16, 20) to the wrist landmark (0) is
strictly below the fist threshold; in particular a frame whose four
distances all equal the threshold exactly is not a fist (strict less-than,
not at-most), and as a pure function of the frame the result is identical
on repeated identical input. -/
theorem C7_isFist (lm : Gest.HandFrame) :
    (Gest.isFist lm ↔ Gest.meanTipWristDistSpec lm < Gest.FIST_THRESHOLD)
      ∧ (Gest.ldist (lm 8) (lm 0) = Gest.FIST_THRESHOLD →
         Gest.ldist (lm 12) (lm 0) = Gest.FIST_THRESHOLD →
         Gest.ldist (lm 16) (lm 0) = Gest.FIST_THRESHOLD →
         Gest.ldist (lm 20) (lm 0) = Gest.FIST_THRESHOLD →
           ¬ Gest.isFist lm) := by
  constructor
  · rw [Gest.isFist, Gest.avg_eq_mean]
  · intro h8 h12 h16 h20 hf
    rw [Gest.isFist, Gest.avg_eq_mean, Gest.meanTipWristDistSpec,
      h8, h12, h16, h20] at hf
    rw [Gest.FIST_THRESHOLD] at hf
    norm_num at hf

open Gest in
/-- Witness for C7: the concrete frame with all four fingertip distances
exactly at the threshold is rejected by isFist. -/
theorem C7_witness : ¬ Gest.isFist Gest.boundaryFrame := by
  have hd : ∀ i : Fin 21, i.val = 8 ∨ i.val = 12 ∨ i.val = 16 ∨ i.val = 20 →
      Gest.ldist (Gest.boundaryFrame i) (Gest.boundaryFrame 0) = Gest.FIST_THRESHOLD := by
    intro i hi
    have hb : Gest.boundaryFrame i = ⟨0.08, 0⟩ := by
      rw [Gest.boundaryFrame]
      rw [if_pos hi]
    have h0 : Gest.boundaryFrame 0 = ⟨0, 0⟩ := by
      rw [Gest.boundaryFrame]
      rw [if_neg (by decide)]
    rw [hb, h0, Gest.ldist]
    have he : ((0.08 : ℝ) - 0) ^ 2 + ((0 : ℝ) - 0) ^ 2 = (0.08 : ℝ) ^ 2 := by
      norm_num
    rw [he, Real.sqrt_sq (by norm_num : (0:ℝ) ≤ 0.08), Gest.FIST_THRESHOLD]
  exact (C7_isFist Gest.boundaryFrame).2
    (hd 8 (by decide)) (hd 12 (by decide)) (hd 16 (by decide)) (hd 20 (by decide))

namespace Forest

theorem processInput_some_detect (s : EngineState) (hi : HandInput) (env : Env) :
    (processInput s (some hi) env).missingHandFrames = 0
      ∧ (processInput s (some hi) env).handDetected = true
      ∧ (s.handDetected = false →
          (processInput s (some hi) env).handStatus = HandStatus.handDetectedMsg) := by
  simp only [processInput, updatePlayerPaddle, startGame, startServePhase, triggerServe]
  split_ifs <;> simp_all

theorem processInput_none_detect (s : EngineState) (env : Env) :
    (processInput s none env).missingHandFrames = s.missingHandFrames + 1
      ∧ ((processInput s none env).handDetected = false
          ↔ (30 < s.missingHandFrames + 1 ∨ s.handDetected = false)) := by
  simp only [processInput]
  split_ifs <;> simp_all

theorem update_detect (s : EngineState) (inp : Option HandInput) (env : Env) :
    (update s inp env).handDetected = (processInput s inp env).handDetected
      ∧ (update s inp env).missingHandFrames
          = (processInput s inp env).missingHandFrames
      ∧ (update s inp env).handStatus = (processInput s inp env).handStatus := by
  have h1 := ballPhase_detect (aiMove (processInput s inp env)) env
  have h2 := (aiMove_fields (processInput s inp env)).2.2.2.2.2.2.2
  have hup : update s inp env = ballPhase (aiMove (processInput s inp env)) env := rfl
  rw [hup]
  exact ⟨h1.1.trans h2.1, h1.2.1.trans h2.2.1, h1.2.2.trans h2.2.2⟩

end Forest

open Forest in
/-- C8: a tick with a present hand frame resets the missing-frame counter
to zero, marks the hand detected, and — when the hand was previously absent
— emits the hand-(re)acquired status in that same tick; a tick with an
absent frame increments the counter, and the hand becomes "lost" exactly
when the incremented counter strictly exceeds 30 (or it was already lost). -/
theorem C8_hand_debounce (s : EngineState) (inp : Option HandInput) (env : Env) :
    (∀ hi : HandInput, inp = some hi →
        (Forest.update s inp env).missingHandFrames = 0
          ∧ (Forest.update s inp env).handDetected = true
          ∧ (s.handDetected = false →
              (Forest.update s inp env).handStatus = HandStatus.handDetectedMsg))
      ∧ (inp = none →
          (Forest.update s inp env).missingHandFrames = s.missingHandFrames + 1
            ∧ ((Forest.update s inp env).handDetected = false
                ↔ (30 < s.missingHandFrames + 1 ∨ s.handDetected = false))) := by
  have hu := update_detect s inp env
  constructor
  · rintro hi rfl
    have hp := processInput_some_detect s hi env
    exact ⟨hu.2.1.trans hp.1, hu.1.trans hp.2.1,
      fun h => (hu.2.2).trans (hp.2.2 h)⟩
  · rintro rfl
    have hp := processInput_none_detect s env
    exact ⟨hu.2.1.trans hp.1, by rw [hu.1]; exact hp.2⟩

open Forest in
/-- Witness for C8: from a detected hand with the counter at 30, one absent
tick pushes the counter to 31 and declares the hand lost. -/
theorem C8_witness :
    (Forest.update { goState with missingHandFrames := 30 } none envHalf).missingHandFrames
        = 31
      ∧ ((Forest.update { goState with missingHandFrames := 30 } none envHalf).handDetected
            = false
          ↔ (30 < 30 + 1 ∨ ({ goState with missingHandFrames := 30 } : EngineState).handDetected = false)) := by
  exact (C8_hand_debounce { goState with missingHandFrames := 30 } none envHalf).2 rfl

namespace Forest

theorem processInput_servingAI {s : EngineState} (inp : Option HandInput) (env : Env)
    (h1 : s.gameState = .SERVING) (h2 : s.serveTurn = .AI) :
    (processInput s inp env).gameState = .SERVING
      ∧ (processInput s inp env).serveTurn = .AI := by
  cases inp with
  | none =>
      simp only [processInput]
      split_ifs <;> simp_all
  | some hi =>
      simp only [processInput, updatePlayerPaddle, startGame, startServePhase,
        triggerServe]
      split_ifs <;> simp_all

theorem ballPhase_servingAI {s : EngineState} (env : Env)
    (h1 : s.gameState = .SERVING) (h2 : s.serveTurn = .AI) :
    ((ballPhase s env).gameState = .PLAYING ↔ env.randAuto < 1/50)
      ∧ (¬ env.randAuto < 1/50 →
          (ballPhase s env).gameState = .SERVING ∧ (ballPhase s env).ball.dy = s.ball.dy) := by
  simp only [ballPhase, triggerServe]
  split_ifs <;> simp_all


end Forest

open Forest in
/-- C9 (amended): while the opponent is the server no gesture is required
from the human — in the GameCanvas variant the serve launches exactly once
more than 1500 ms have elapsed (a fixed delay), while in the Forest engine
the serve launches exactly when the tick's random draw falls below 0.02,
whatever the hand input, so the launch there is stochastic per tick rather
than a deterministic time bound. -/
theorem C9_auto_serve :
    (∀ (g : Bool) (now timer : ℚ),
        P2.serveLaunches .ai g now timer = true ↔ 1500 < now - timer)
      ∧ (∀ (s : EngineState) (inp : Option HandInput) (env : Env),
          s.gameState = .SERVING → s.serveTurn = .AI →
            ((Forest.update s inp env).gameState = GState.PLAYING
              ↔ env.randAuto < 1/50)) := by
  constructor
  · intro g now timer
    simp [P2.serveLaunches]
  · intro s inp env h1 h2
    have hp := processInput_servingAI inp env h1 h2
    have hgs := aiMove_gameState (processInput s inp env)
    have hst := (aiMove_fields (processInput s inp env)).2.2.2.2.2.1
    have hb := ballPhase_servingAI (s := aiMove (processInput s inp env)) env
      (hgs.trans hp.1) (hst.trans hp.2)
    exact hb.1

open Forest in
/-- Witness for C9: with the opponent serving and no hand input at all, the
tick with the one-half draw does not launch (one half is not below 0.02),
and the GameCanvas rule instantiated at 2000 ms vs timer 0 launches. -/
theorem C9_witness :
    ((Forest.update cs9 none envHalf).gameState = GState.PLAYING
        ↔ (1/2 : ℚ) < 1/50)
      ∧ (P2.serveLaunches .ai false 2000 0 = true ↔ (1500 : ℚ) < 2000 - 0) := by
  exact ⟨C9_auto_serve.2 cs9 none envHalf rfl rfl, C9_auto_serve.1 false 2000 0⟩

open Forest in
/-- Counterexample for C9: at the same opponent-serving state and tick, the
Forest engine launches when the random draw is 0.01 but not when it is 0.5
(the ball stays unlaunched with zero vertical velocity), so the serve there
is not launched after any fixed deterministic delay. -/
theorem C9_counterexample :
    (Forest.update cs9 none envLow).gameState = GState.PLAYING
      ∧ (Forest.update cs9 none envHalf).gameState = GState.SERVING
      ∧ (Forest.update cs9 none envHalf).ball.dy = 0 := by
  have hp1 := processInput_servingAI (s := cs9) none envLow rfl rfl
  have hg1 := aiMove_gameState (processInput cs9 none envLow)
  have ht1 := (aiMove_fields (processInput cs9 none envLow)).2.2.2.2.2.1
  have hb1 := ballPhase_servingAI (s := aiMove (processInput cs9 none envLow)) envLow
    (hg1.trans hp1.1) (ht1.trans hp1.2)
  have hp2 := processInput_servingAI (s := cs9) none envHalf rfl rfl
  have hg2 := aiMove_gameState (processInput cs9 none envHalf)
  have ht2 := (aiMove_fields (processInput cs9 none envHalf)).2.2.2.2.2.1
  have hb2 := ballPhase_servingAI (s := aiMove (processInput cs9 none envHalf)) envHalf
    (hg2.trans hp2.1) (ht2.trans hp2.2)
  have hno : ¬ (envHalf.randAuto < 1/50) := by norm_num [envHalf]
  refine ⟨hb1.1.mpr (by norm_num [envLow]), (hb2.2 hno).1, ?_⟩
  have hball := (aiMove_fields (processInput cs9 none envHalf)).1
  have hpb : (processInput cs9 none envHalf).ball = cs9.ball := by
    simp only [processInput]
    split_ifs <;> simp
  rw [show Forest.update cs9 none envHalf
      = ballPhase (aiMove (processInput cs9 none envHalf)) envHalf from rfl,
    (hb2.2 hno).2, hball, hpb]
  rfl

namespace Forest

theorem processInput_fist_restart {s : EngineState} {hi : HandInput} (env : Env)
    (hg : s.gameState = .MENU ∨ s.gameState = .GAME_OVER) (hf : hi.fist = true) :
    (processInput s (some hi) env).player = 0
      ∧ (processInput s (some hi) env).ai = 0
      ∧ (processInput s (some hi) env).servesCount = 0
      ∧ (processInput s (some hi) env).serveTurn = .PLAYER
      ∧ (processInput s (some hi) env).gameState = .SERVING := by
  simp only [processInput, updatePlayerPaddle, startGame, startServePhase]
  rcases hg with hg | hg <;> split_ifs <;> simp_all

theorem ballPhase_servingPlayer_match {s : EngineState} (env : Env)
    (h1 : s.gameState = .SERVING) (h2 : s.serveTurn = .PLAYER) :
    (ballPhase s env).player = s.player ∧ (ballPhase s env).ai = s.ai
      ∧ (ballPhase s env).servesCount = s.servesCount
      ∧ (ballPhase s env).serveTurn = s.serveTurn := by
  simp only [ballPhase]
  split_ifs <;> simp_all

end Forest

open Forest in
/-- C10: whatever the previous scores and server, a fist restart from the
MENU or GAME_OVER screens enters the serve phase of a fresh match with both
scores exactly 0, the consecutive-serve counter 0 and the human player as
first server; the GameCanvas variant's reset effect does the same. -/
theorem C10_restart_resets :
    (∀ (s : EngineState) (hi : HandInput) (env : Env),
        (s.gameState = .MENU ∨ s.gameState = .GAME_OVER) → hi.fist = true →
          (Forest.update s (some hi) env).player = 0
            ∧ (Forest.update s (some hi) env).ai = 0
            ∧ (Forest.update s (some hi) env).servesCount = 0
            ∧ (Forest.update s (some hi) env).serveTurn = ServeTurn.PLAYER
            ∧ (Forest.update s (some hi) env).gameState = GState.SERVING)
      ∧ (∀ m : P2.MatchState,
          (P2.resetMatch m).player = 0 ∧ (P2.resetMatch m).ai = 0
            ∧ (P2.resetMatch m).server = P2.Server.player
            ∧ (P2.resetMatch m).servesCount = 0) := by
  constructor
  · intro s hi env hg hf
    have hp := processInput_fist_restart env hg hf
    have haf := aiMove_fields (processInput s (some hi) env)
    have hgs := aiMove_gameState (processInput s (some hi) env)
    have hsv : (aiMove (processInput s (some hi) env)).gameState = .SERVING :=
      hgs.trans hp.2.2.2.2
    have htv : (aiMove (processInput s (some hi) env)).serveTurn = .PLAYER :=
      (haf.2.2.2.2.2.1).trans hp.2.2.2.1
    have hb := ballPhase_servingPlayer_match (s := aiMove (processInput s (some hi) env))
      env hsv htv
    have hbs := ballPhase_servingPlayer (s := aiMove (processInput s (some hi) env))
      env hsv htv
    have hup : Forest.update s (some hi) env
        = ballPhase (aiMove (processInput s (some hi) env)) env := rfl
    rw [hup]
    refine ⟨?_, ?_, ?_, ?_, hbs.1⟩
    · rw [hb.1, haf.2.2.2.1, hp.1]
    · rw [hb.2.1, haf.2.2.2.2.1, hp.2.1]
    · rw [hb.2.2.1, haf.2.2.2.2.2.2.1, hp.2.2.1]
    · rw [hb.2.2.2, haf.2.2.2.2.2.1, hp.2.2.2.1]
  · intro m
    simp [P2.resetMatch]

open Forest in
/-- Witness for C10: a fist from the concrete 11-5 finished match starts a
fresh match at 0-0, counter 0, player to serve. -/
theorem C10_witness :
    (Forest.update goState (some ⟨1/2, true, false⟩) envHalf).player = 0
      ∧ (Forest.update goState (some ⟨1/2, true, false⟩) envHalf).ai = 0
      ∧ (Forest.update goState (some ⟨1/2, true, false⟩) envHalf).servesCount = 0
      ∧ (Forest.update goState (some ⟨1/2, true, false⟩) envHalf).serveTurn
          = ServeTurn.PLAYER
      ∧ (Forest.update goState (some ⟨1/2, true, false⟩) envHalf).gameState
          = GState.SERVING := by
  exact C10_restart_resets.1 goState ⟨1/2, true, false⟩ envHalf (Or.inr rfl) rfl
